import Mathlib

/-!
# Verification of the balance-sheet analyzer (`src/app.py`)

Shallow embedding of the analyzer script.  Python floats are modelled as
extended rationals (`FVal`): a finite rational, a signed infinity, or NaN,
with IEEE-style comparison (every comparison involving NaN is false) and
IEEE-style division (NaN propagates; finite/0 is ±infinity except 0/0 = NaN).
Threshold constants of the script (1.5, 1.2, 0.3, …) are taken at their
decimal values.

Pandas/yfinance tables are modelled as association lists from line-item
names to per-column value lists; `numpy` elementwise array division is
`List.zipWith`.  Network fetch, chart rendering and string interpolation
are external collaborators and enter only as parameters or as the
branch-relevant parts of the produced report.
-/

set_option autoImplicit false

namespace BLSheet

/-- Model of a Python/numpy float: NaN, a signed infinity
(`inf true` = +∞, `inf false` = −∞), or a finite rational. -/
inductive FVal where
  | nan : FVal
  | inf : Bool → FVal
  | fin : ℚ → FVal
deriving DecidableEq, Repr

/-- IEEE-style strict less-than on model floats: any comparison with NaN
is false; −∞ is below every finite value and +∞ above. -/
def FVal.lt : FVal → FVal → Bool
  | .nan, _ => false
  | _, .nan => false
  | .inf s, .inf t => !s && t
  | .inf s, .fin _ => !s
  | .fin _, .inf t => t
  | .fin a, .fin b => decide (a < b)

/-- IEEE-style strict greater-than: `a > b` is `b < a`. -/
def FVal.gt (a b : FVal) : Bool := FVal.lt b a

/-- `np.isnan`. -/
def FVal.isnan : FVal → Bool
  | .nan => true
  | _ => false

/-- Exact division of rationals, written out on numerators and
denominators so that it evaluates inside the kernel; `ratDiv_eq_div` below
proves it agrees with Mathlib's field division. -/
def ratDiv (a b : ℚ) : ℚ :=
  if 0 ≤ b.num then mkRat (a.num * b.den) (a.den * b.num.natAbs)
  else mkRat (-(a.num * b.den)) (a.den * b.num.natAbs)

/-- IEEE/numpy-style division on model floats: NaN propagates from either
operand; ∞/∞ = NaN; ∞ divided by a finite value stays infinite (sign
flipped by a negative divisor); a finite value over an infinity is 0;
finite/0 is NaN for 0/0 and a signed infinity otherwise (the model has no
signed zero, so a zero divisor counts as +0). -/
def FVal.div : FVal → FVal → FVal
  | .nan, _ => .nan
  | _, .nan => .nan
  | .inf _, .inf _ => .nan
  | .inf s, .fin q => if q < 0 then .inf (!s) else .inf s
  | .fin _, .inf _ => .fin 0
  | .fin a, .fin b =>
      if b = 0 then
        if a = 0 then .nan
        else if 0 < a then .inf true else .inf false
      else .fin (ratDiv a b)

/-- Liquidity bucketing of `generate_ai_analysis` (src/app.py lines
138–147): strict `>` thresholds 2.0, 1.5, 1.2, 1.0. -/
def liquidityLabel (cr : FVal) : String :=
  if cr.gt (.fin 2) then "excellent short-term financial health"
  else if cr.gt (.fin (mkRat 15 10)) then "comfortable liquidity position"
  else if cr.gt (.fin (mkRat 12 10)) then "adequate current assets coverage"
  else if cr.gt (.fin 1) then "minimal liquidity buffer"
  else "potential liquidity concerns"

/-- Debt bucketing of `generate_ai_analysis` (src/app.py lines 150–157):
strict `<` thresholds 0.3, 0.7, 1.0. -/
def debtLabel (dte : FVal) : String :=
  if dte.lt (.fin (mkRat 3 10)) then "conservative debt management with low financial risk"
  else if dte.lt (.fin (mkRat 7 10)) then "moderate leverage that's typically manageable"
  else if dte.lt (.fin 1) then "aggressive financing strategy"
  else "highly leveraged position increasing bankruptcy risk"

/-- Equity bucketing of `generate_ai_analysis` (src/app.py lines 160–165):
strict `>` thresholds 0.6, 0.4. -/
def equityLabel (er : FVal) : String :=
  if er.gt (.fin (mkRat 6 10)) then "strong equity base providing financial stability"
  else if er.gt (.fin (mkRat 4 10)) then "balanced capital structure"
  else "asset-heavy with potential refinancing risks"

/-- Recommendation of `generate_ai_analysis` (src/app.py line 194):
`Conservative` iff `dte < 0.5 and cr > 1.5`, else `Moderate`. -/
def recommendationLabel (dte cr : FVal) : String :=
  if dte.lt (.fin (mkRat 5 10)) && cr.gt (.fin (mkRat 15 10)) then "Conservative" else "Moderate"

/-- A column date of the yfinance balance sheet (a fiscal period end);
`pd.to_datetime(...).year` keeps only the `year` field. -/
structure BDate where
  year : Int
  month : Nat
  day : Nat
deriving DecidableEq, Repr

/-- The raw `stock.balance_sheet` DataFrame: row index = line-item names,
columns = fiscal period-end dates, values row-major (one list per line
item, one entry per date). -/
structure RawBS where
  items : List (String × List FVal)
  dates : List BDate
deriving DecidableEq, Repr

/-- `DataFrame.empty`: true when either axis has length zero. -/
def RawBS.isEmpty (r : RawBS) : Bool := r.items.isEmpty || r.dates.isEmpty

/-- Well-formed table: every line-item row has one value per date column. -/
abbrev RawBS.WF (r : RawBS) : Prop := ∀ p ∈ r.items, p.2.length = r.dates.length

/-- The transposed frame `bs_df = balance_sheet.T`: row index = dates,
columns = line items (src/app.py line 32). -/
structure TDFDates where
  index : List BDate
  cols : List (String × List FVal)
deriving DecidableEq, Repr

/-- The cleaned frame after `bs_df.index = pd.to_datetime(bs_df.index).year`
(src/app.py line 33): row index = fiscal years. -/
structure TDF where
  years : List Int
  cols : List (String × List FVal)
deriving DecidableEq, Repr

/-- `balance_sheet.T`: swap the axes.  The raw table is stored row-major by
line item, so the transposed frame's columns are exactly those rows. -/
def transposeRaw (r : RawBS) : TDFDates := { index := r.dates, cols := r.items }

/-- `bs_df.index = pd.to_datetime(bs_df.index).year`: replace the date
index by the years, in place on `bs_df`. -/
def setYearIndex (t : TDFDates) : TDF :=
  { years := t.index.map BDate.year, cols := t.cols }

/-- `bs_df.get(name, pd.Series([np.nan]*len(bs_df))).values` (src/app.py
lines 38–44): the named column if present, else a NaN series of the frame's
row count. -/
def TDF.getCol (t : TDF) (name : String) : List FVal :=
  match t.cols.find? (fun p => p.1 == name) with
  | some p => p.2
  | none => List.replicate t.years.length FVal.nan

/-- The `results` dictionary built by `analyze_balance_sheet`
(src/app.py lines 36–51). -/
structure AnalysisResults where
  years : List Int
  total_assets : List FVal
  total_liab : List FVal
  total_equity : List FVal
  current_assets : List FVal
  current_liab : List FVal
  long_term_debt : List FVal
  cash : List FVal
  current_ratio : List FVal
  debt_to_equity : List FVal
  debt_to_assets : List FVal
  equity_ratio : List FVal
deriving DecidableEq, Repr

/-- numpy elementwise array division. -/
def arrDiv (a b : List FVal) : List FVal := List.zipWith FVal.div a b

/-- Metric extraction and ratio computation of `analyze_balance_sheet`
(src/app.py lines 36–51), on the cleaned transposed frame. -/
def resultsFrom (t : TDF) : AnalysisResults :=
  let ta := t.getCol "Total Assets"
  let tl := t.getCol "Total Liabilities"
  let te := t.getCol "Total Equity"
  let ca := t.getCol "Current Assets"
  let cl := t.getCol "Current Liabilities"
  let ltd := t.getCol "Long Term Debt"
  let cash := t.getCol "Cash And Cash Equivalents"
  { years := t.years
    total_assets := ta
    total_liab := tl
    total_equity := te
    current_assets := ca
    current_liab := cl
    long_term_debt := ltd
    cash := cash
    current_ratio := arrDiv ca cl
    debt_to_equity := arrDiv ltd te
    debt_to_assets := arrDiv ltd ta
    equity_ratio := arrDiv te ta }

/-- The decision-relevant content of the narrative report assembled by
`generate_ai_analysis` (src/app.py lines 171–195).  Numeric string
interpolation (`f"{cr:.2f}"` and the crore rescalings) is presentation
plumbing and is not modelled; each field records the selected branch. -/
structure Report where
  year : Int
  liquidity : String
  debt : String
  equity : String
  cashInsufficient : Bool
  recommendation : String
deriving DecidableEq, Repr

/-- The report for given last-row values: `latest_year = years[-1]`,
`cr = current_ratio[-1]`, etc. (src/app.py lines 131–195).  The cash
branch (line 168) selects "insufficient data" exactly when `cash[-1]/1e7`
is NaN, which holds iff `cash[-1]` is. -/
def buildReport (latest_year : Int) (cr dte er cash : FVal) : Report :=
  { year := latest_year
    liquidity := liquidityLabel cr
    debt := debtLabel dte
    equity := equityLabel er
    cashInsufficient := cash.isnan
    recommendation := recommendationLabel dte cr }

/-- `generate_ai_analysis` (src/app.py lines 129–197).  Python `xs[-1]`
raises on an empty array, so the result is `Option`; when `years` is
nonempty the remaining series have the same length (they are columns of
the same frame), so their last elements are taken with a NaN default. -/
def generate_ai_analysis (r : AnalysisResults) : Option Report :=
  match r.years.getLast? with
  | none => none
  | some latest_year =>
      some (buildReport latest_year
        (r.current_ratio.getLastD FVal.nan)
        (r.debt_to_equity.getLastD FVal.nan)
        (r.equity_ratio.getLastD FVal.nan)
        (r.cash.getLastD FVal.nan))

/-- `analyze_balance_sheet` (src/app.py lines 29–59): transpose, set the
year index, extract metrics and ratios, and build the narrative report.
Chart rendering (`generate_visualizations`) draws from `results` without
changing it and is not modelled. -/
def analyze_balance_sheet (balance_sheet : RawBS) : AnalysisResults × Option Report :=
  let bs_df := setYearIndex (transposeRaw balance_sheet)
  let results := resultsFrom bs_df
  (results, generate_ai_analysis results)

/-- Symbol normalisation of `get_stock_data` (src/app.py lines 15–16):
append `.NS` when the symbol contains no `'.'` (Python `'.' in symbol` is
membership of the character among the symbol's characters); the subsequent
yfinance calls are an external collaborator. -/
def resolveSymbol (symbol : String) : String :=
  if !(symbol.data.contains '.') then symbol ++ ".NS" else symbol

/-- The `info` dictionary returned by yfinance; only string lookups are
performed on it, so it is an opaque association list here. -/
abbrev Info := List (String × String)

/-- Banner printed by `main` (src/app.py line 201). -/
def bannerLine : String := "Indian Stock Balance Sheet Analyzer"

/-- Progress line printed inside the `try` block (src/app.py line 205). -/
def fetchLine (symbol : String) : String := "\nFetching data for " ++ symbol ++ "..."

/-- Error message for an empty balance sheet (src/app.py line 209). -/
def emptyMsg : String := "Error: No balance sheet data available for this stock"

/-- Progress line before analysis (src/app.py line 212). -/
def analyzingLine : String := "Analyzing financial health..."

/-- Hint printed by the `except` handler (src/app.py line 222). -/
def hintMsg : String := "Please check the stock symbol and try again. Use '.NS' suffix for NSE stocks."

/-- `"=" * 80` (src/app.py lines 215, 217). -/
def sepLine : String := String.mk (List.replicate 80 '=')

/-- Closing line of a successful run (src/app.py line 218). -/
def savedLine : String := "Visual analysis saved as 'balance_sheet_analysis.png'"

/-- The `try` block of `main` (src/app.py lines 204–222) as the list of
printed lines.  `get_stock_data` and the analysis step are parameters that
may fail with an exception message (`Except.error`); both failures are
caught by the `except Exception` handler and turned into printed text, so
the body is a total function into `List String`.  The banner printed just
before the prompt is included here for completeness; its position relative
to the prompt is immaterial to the modelled behaviour. -/
def mainBody (symbol : String)
    (get_stock_data : String → Except String (RawBS × Info))
    (analyze : RawBS → Info → Except String String) : List String :=
  let pre := [bannerLine, fetchLine symbol]
  match get_stock_data symbol with
  | .error e => pre ++ ["Error: " ++ e, hintMsg]
  | .ok (balance_sheet, info) =>
      if balance_sheet.isEmpty then pre ++ [emptyMsg]
      else
        match analyze balance_sheet info with
        | .error e => pre ++ [analyzingLine, "Error: " ++ e, hintMsg]
        | .ok analysis =>
            pre ++ [analyzingLine, "\n" ++ sepLine, analysis, sepLine, savedLine]

/-- `main` (src/app.py lines 199–222).  The prompt
`input(...).strip()` at line 202 runs BEFORE the `try` block, so a failure
there (e.g. `EOFError` on closed stdin) is modelled by `readInput` being
`Except.error` and propagates out of `main` unhandled; once the prompt
succeeds, the whole body is inside the handler and cannot escape. -/
def main (readInput : Except String String)
    (get_stock_data : String → Except String (RawBS × Info))
    (analyze : RawBS → Info → Except String String) : Except String (List String) :=
  match readInput with
  | .error e => .error e
  | .ok raw => .ok (mainBody raw.trim get_stock_data analyze)

/-- A pandas object reachable inside `analyze_balance_sheet`: the raw
balance sheet argument, the transposed frame `bs_df` fresh from `.T`, or
`bs_df` after its index was overwritten with years. -/
inductive PObj where
  | raw : RawBS → PObj
  | tdfD : TDFDates → PObj
  | tdfY : TDF → PObj
deriving DecidableEq, Repr

/-- An object heap: references are numbers, objects are pandas frames.
Mutation of one object must not be visible through other references. -/
abbrev Heap := List (Nat × PObj)

/-- Dereference. -/
def hget (h : Heap) (i : Nat) : Option PObj :=
  (h.find? (fun p => p.1 == i)).map Prod.snd

/-- In-place update of the object at reference `i`. -/
def hset (h : Heap) (i : Nat) (o : PObj) : Heap :=
  h.map (fun p => if p.1 = i then (i, o) else p)

/-- Heap well-formedness: every live reference is below `h.length`, so
`h.length` is fresh. -/
abbrev Heap.WF (h : Heap) : Prop := ∀ p ∈ h, p.1 < h.length

/-- `analyze_balance_sheet` (src/app.py lines 29–59) as a heap
transformer, making object identity explicit: `balance_sheet.T` allocates
a new frame `bs_df` at a fresh reference, the index assignment at line 33
mutates that frame in place, and all later steps only read.  Returns the
final heap and the computed results. -/
def analyzeHeap (h : Heap) (bsRef : Nat) : Heap × Option (AnalysisResults × Option Report) :=
  match hget h bsRef with
  | some (PObj.raw balance_sheet) =>
      let r := h.length
      let h1 := (r, PObj.tdfD (transposeRaw balance_sheet)) :: h
      let h2 :=
        match hget h1 r with
        | some (PObj.tdfD t) => hset h1 r (PObj.tdfY (setYearIndex t))
        | _ => h1
      let res :=
        match hget h2 r with
        | some (PObj.tdfY t) => some (resultsFrom t, generate_ai_analysis (resultsFrom t))
        | _ => none
      (h2, res)
  | _ => (h, none)

/-- Sample table with every line item present over two fiscal years;
the 2024 column has current assets 150 and current liabilities 100, so the
latest current ratio is exactly 1.5. -/
def sampleBS : RawBS :=
  { items := [("Total Assets", [.fin 1000, .fin 1200]),
              ("Total Liabilities", [.fin 400, .fin 500]),
              ("Total Equity", [.fin 600, .fin 700]),
              ("Current Assets", [.fin 300, .fin 150]),
              ("Current Liabilities", [.fin 200, .fin 100]),
              ("Long Term Debt", [.fin 100, .fin 120]),
              ("Cash And Cash Equivalents", [.fin 50, .fin 60])],
    dates := [⟨2023, 3, 31⟩, ⟨2024, 3, 31⟩] }

/-- Sample table whose only line item is `Total Assets`: every other
metric falls back to the NaN series. -/
def sampleMissing : RawBS :=
  { items := [("Total Assets", [.fin 100])], dates := [⟨2024, 3, 31⟩] }

/-- Report produced for `sampleMissing`: all ratios NaN, worst buckets. -/
def sampleMissingReport : Report :=
  { year := 2024
    liquidity := "potential liquidity concerns"
    debt := "highly leveraged position increasing bankruptcy risk"
    equity := "asset-heavy with potential refinancing risks"
    cashInsufficient := true
    recommendation := "Moderate" }

/-- Sample table with a zero current-liabilities denominator. -/
def sampleZeroCL : RawBS :=
  { items := [("Current Assets", [.fin 100]), ("Current Liabilities", [.fin 0])],
    dates := [⟨2024, 3, 31⟩] }

/-- Sample table whose columns are NOT in chronological order: the last
column is fiscal 2020 although 2024 is also present. -/
def sampleUnsorted : RawBS :=
  { items := [("Total Assets", [.fin 500, .fin 300]),
              ("Current Assets", [.fin 200, .fin 100]),
              ("Current Liabilities", [.fin 100, .fin 100])],
    dates := [⟨2024, 3, 31⟩, ⟨2020, 3, 31⟩] }

/-- Report produced for `sampleUnsorted`: the "latest" year reported is
2020, the LAST column, although 2024 is present in the table. -/
def sampleUnsortedReport : Report :=
  { year := 2020
    liquidity := "potential liquidity concerns"
    debt := "highly leveraged position increasing bankruptcy risk"
    equity := "asset-heavy with potential refinancing risks"
    cashInsufficient := true
    recommendation := "Moderate" }

/-- A one-object heap holding a raw balance sheet at reference 0. -/
def sampleHeap : Heap := [(0, PObj.raw sampleMissing)]

/-! ## Basic lemmas about the float model and the table pipeline -/

theorem ratDiv_eq_div (a b : ℚ) : ratDiv a b = a / b := by
  unfold ratDiv
  by_cases hb : b = 0
  · subst hb; simp
  · have hbn : b.num ≠ 0 := Rat.num_ne_zero.mpr hb
    have had : ((a.den : ℚ)) ≠ 0 := by exact_mod_cast a.den_nz
    have hbd : ((b.den : ℚ)) ≠ 0 := by exact_mod_cast b.den_nz
    have hbnq : ((b.num : ℚ)) ≠ 0 := by exact_mod_cast hbn
    have ha2 : a * (a.den : ℚ) = (a.num : ℚ) :=
      (eq_div_iff had).mp (Rat.num_div_den a).symm
    have hb2 : b * (b.den : ℚ) = (b.num : ℚ) :=
      (eq_div_iff hbd).mp (Rat.num_div_den b).symm
    by_cases hs : 0 ≤ b.num
    · rw [if_pos hs, Rat.mkRat_eq_div]
      have hcast : ((a.den * b.num.natAbs : ℕ) : ℚ) = (a.den : ℚ) * (b.num : ℚ) := by
        rw [Nat.cast_mul]
        congr 1
        rw [← Int.cast_natCast, Int.natAbs_of_nonneg hs]
      rw [hcast, div_eq_div_iff (mul_ne_zero had hbnq) hb]
      push_cast
      linear_combination (a.num : ℚ) * hb2 - (b.num : ℚ) * ha2
    · rw [if_neg hs, Rat.mkRat_eq_div]
      have hneg : b.num < 0 := lt_of_not_ge hs
      have hcast : ((a.den * b.num.natAbs : ℕ) : ℚ) = -((a.den : ℚ) * (b.num : ℚ)) := by
        rw [Nat.cast_mul]
        have habs : ((b.num.natAbs : ℕ) : ℚ) = -(b.num : ℚ) := by
          rw [← Int.cast_natCast, Int.ofNat_natAbs_of_nonpos hneg.le, Int.cast_neg]
        rw [habs]; ring
      rw [hcast, div_eq_div_iff (neg_ne_zero.mpr (mul_ne_zero had hbnq)) hb]
      push_cast
      linear_combination (b.num : ℚ) * ha2 - (a.num : ℚ) * hb2

theorem div_nan_left (y : FVal) : FVal.div FVal.nan y = FVal.nan := by
  cases y <;> rfl

theorem div_nan_right (x : FVal) : FVal.div x FVal.nan = FVal.nan := by
  cases x <;> rfl

theorem lt_nan_right (x : FVal) : FVal.lt x FVal.nan = false := by
  cases x <;> rfl

theorem lt_nan_left (x : FVal) : FVal.lt FVal.nan x = false := by
  cases x <;> rfl

theorem arrDiv_replicate_left (n : Nat) (b : List FVal) :
    arrDiv (List.replicate n FVal.nan) b = List.replicate (min n b.length) FVal.nan := by
  unfold arrDiv
  induction n generalizing b with
  | zero => simp
  | succ n ih =>
      cases b with
      | nil => simp
      | cons y b =>
          rw [List.replicate_succ, List.zipWith_cons_cons, div_nan_left, ih,
            List.length_cons, Nat.succ_min_succ, List.replicate_succ]

theorem arrDiv_replicate_right (a : List FVal) (n : Nat) :
    arrDiv a (List.replicate n FVal.nan) = List.replicate (min a.length n) FVal.nan := by
  unfold arrDiv
  induction a generalizing n with
  | nil => simp
  | cons x a ih =>
      cases n with
      | zero => simp
      | succ n =>
          rw [List.replicate_succ, List.zipWith_cons_cons, div_nan_right, ih,
            List.length_cons, Nat.succ_min_succ, List.replicate_succ]

theorem getCol_length (t : TDF) (name : String)
    (h : ∀ p ∈ t.cols, p.2.length = t.years.length) :
    (t.getCol name).length = t.years.length := by
  cases hf : t.cols.find? (fun p => p.1 == name) with
  | none => simp [TDF.getCol, hf]
  | some p => simpa [TDF.getCol, hf] using h p (List.mem_of_find?_eq_some hf)

theorem getCol_missing (t : TDF) (name : String)
    (h : ∀ p ∈ t.cols, ¬ p.1 = name) :
    t.getCol name = List.replicate t.years.length FVal.nan := by
  have hf : t.cols.find? (fun p => p.1 == name) = none :=
    List.find?_eq_none.mpr (fun p hp => by simpa using h p hp)
  simp [TDF.getCol, hf]

theorem cleaned_cols (bs : RawBS) :
    (setYearIndex (transposeRaw bs)).cols = bs.items := rfl

theorem cleaned_years_length (bs : RawBS) :
    (setYearIndex (transposeRaw bs)).years.length = bs.dates.length := by
  simp [setYearIndex, transposeRaw]

theorem cleaned_wf (bs : RawBS) (h : bs.WF) :
    ∀ p ∈ (setYearIndex (transposeRaw bs)).cols,
      p.2.length = (setYearIndex (transposeRaw bs)).years.length := by
  intro p hp
  simpa [setYearIndex, transposeRaw] using h p hp

theorem zipWith_getD_of_lt (f : FVal → FVal → FVal) :
    ∀ (a b : List FVal) (i : Nat), i < a.length → i < b.length →
      (List.zipWith f a b).getD i FVal.nan = f (a.getD i FVal.nan) (b.getD i FVal.nan)
  | _ :: _, _ :: _, 0, _, _ => rfl
  | _ :: a, _ :: b, i+1, ha, hb =>
      zipWith_getD_of_lt f a b i (Nat.lt_of_succ_lt_succ ha) (Nat.lt_of_succ_lt_succ hb)
  | [], _, _, ha, _ => absurd ha (by simp)
  | _ :: _, [], _, _, hb => absurd hb (by simp)

theorem hget_cons (x : Nat × PObj) (l : Heap) (i : Nat) :
    hget (x :: l) i = if x.1 = i then some x.2 else hget l i := by
  by_cases hx : x.1 = i
  · rw [if_pos hx]
    unfold hget
    rw [List.find?_cons_of_pos l (by simp [hx])]
    rfl
  · rw [if_neg hx]
    unfold hget
    rw [List.find?_cons_of_neg l (by simp [hx])]

theorem hget_hset_ne (h : Heap) (j : Nat) (o : PObj) (i : Nat) (hne : i ≠ j) :
    hget (hset h j o) i = hget h i := by
  induction h with
  | nil => rfl
  | cons x l ih =>
      show hget ((if x.1 = j then (j, o) else x) :: hset l j o) i = hget (x :: l) i
      by_cases hx : x.1 = j
      · rw [if_pos hx, hget_cons, hget_cons,
          if_neg (show ¬((j, o) : Nat × PObj).1 = i from Ne.symm hne),
          if_neg (show ¬x.1 = i from hx ▸ Ne.symm hne)]
        exact ih
      · rw [if_neg hx, hget_cons, hget_cons]
        by_cases hxi : x.1 = i
        · rw [if_pos hxi, if_pos hxi]
        · rw [if_neg hxi, if_neg hxi]
          exact ih

theorem hget_lt_length (h : Heap) (hwf : Heap.WF h) (i : Nat) (o : PObj)
    (hg : hget h i = some o) : i < h.length := by
  unfold hget at hg
  cases hf : h.find? (fun p => p.1 == i) with
  | none => rw [hf] at hg; cases hg
  | some p =>
      have hm := List.mem_of_find?_eq_some hf
      have hp : p.1 = i := by simpa using List.find?_some hf
      exact hp ▸ hwf p hm

theorem ratio_all_nan_left (bs : RawBS) (hwf : bs.WF) (missing other : String)
    (hmiss : ∀ p ∈ bs.items, ¬ p.1 = missing) :
    arrDiv ((setYearIndex (transposeRaw bs)).getCol missing)
      ((setYearIndex (transposeRaw bs)).getCol other) =
      List.replicate bs.dates.length FVal.nan := by
  rw [getCol_missing _ _ hmiss, arrDiv_replicate_left,
    getCol_length _ _ (cleaned_wf bs hwf), cleaned_years_length, Nat.min_self]

theorem ratio_all_nan_right (bs : RawBS) (hwf : bs.WF) (other missing : String)
    (hmiss : ∀ p ∈ bs.items, ¬ p.1 = missing) :
    arrDiv ((setYearIndex (transposeRaw bs)).getCol other)
      ((setYearIndex (transposeRaw bs)).getCol missing) =
      List.replicate bs.dates.length FVal.nan := by
  rw [getCol_missing (setYearIndex (transposeRaw bs)) missing hmiss,
    arrDiv_replicate_right, getCol_length _ _ (cleaned_wf bs hwf),
    cleaned_years_length, Nat.min_self]

/-! ## Claim theorems -/

/-- C1 (counterexample): at a current ratio of exactly 1.5 the liquidity
classifier of `generate_ai_analysis` does NOT select the "comfortable
liquidity position" bucket — the `cr > 1.5` test is strict, so 1.5 falls
through to the next bucket. -/
theorem c1_counterexample :
    liquidityLabel (FVal.fin (mkRat 15 10)) ≠ "comfortable liquidity position" := by
  decide

/-- C1 (amended): a current ratio of exactly 1.5 is classified as
"adequate current assets coverage": it reaches neither the "excellent"
bucket (requires `> 2.0`) nor the "comfortable" bucket (requires strictly
`> 1.5`). -/
theorem c1_boundary_bucket :
    liquidityLabel (FVal.fin (mkRat 15 10)) = "adequate current assets coverage" ∧
    liquidityLabel (FVal.fin (mkRat 15 10)) ≠ "excellent short-term financial health" ∧
    liquidityLabel (FVal.fin (mkRat 15 10)) ≠ "comfortable liquidity position" := by
  refine ⟨?_, ?_, ?_⟩ <;> decide

/-- C2: for every year (column index) of a well-formed table,
`analyze_balance_sheet` produces one current-ratio entry per year, and
that entry is the year's current assets divided by the year's current
liabilities. -/
theorem c2_current_ratio (bs : RawBS) (hwf : bs.WF) (i : Nat)
    (hi : i < bs.dates.length) :
    (analyze_balance_sheet bs).1.current_ratio.length = bs.dates.length ∧
    (analyze_balance_sheet bs).1.current_ratio.getD i FVal.nan =
      FVal.div ((analyze_balance_sheet bs).1.current_assets.getD i FVal.nan)
        ((analyze_balance_sheet bs).1.current_liab.getD i FVal.nan) := by
  have hca : ((setYearIndex (transposeRaw bs)).getCol "Current Assets").length
      = bs.dates.length := by
    rw [getCol_length _ _ (cleaned_wf bs hwf), cleaned_years_length]
  have hcl : ((setYearIndex (transposeRaw bs)).getCol "Current Liabilities").length
      = bs.dates.length := by
    rw [getCol_length _ _ (cleaned_wf bs hwf), cleaned_years_length]
  constructor
  · show (arrDiv ((setYearIndex (transposeRaw bs)).getCol "Current Assets")
        ((setYearIndex (transposeRaw bs)).getCol "Current Liabilities")).length
      = bs.dates.length
    simp [arrDiv, List.length_zipWith, hca, hcl]
  · exact zipWith_getD_of_lt FVal.div _ _ i
      (by rw [hca]; exact hi) (by rw [hcl]; exact hi)

/-- C2 witness: the current-ratio identity at `sampleBS`, year index 1. -/
theorem c2_witness :
    (analyze_balance_sheet sampleBS).1.current_ratio.length = sampleBS.dates.length ∧
    (analyze_balance_sheet sampleBS).1.current_ratio.getD 1 FVal.nan =
      FVal.div ((analyze_balance_sheet sampleBS).1.current_assets.getD 1 FVal.nan)
        ((analyze_balance_sheet sampleBS).1.current_liab.getD 1 FVal.nan) :=
  c2_current_ratio sampleBS (by decide) 1 (by decide)

/-- C3: for every year (column index) of a well-formed table,
`analyze_balance_sheet` produces one debt-to-equity entry per year, and
that entry is the year's long-term debt divided by the year's
shareholders' equity. -/
theorem c3_debt_to_equity (bs : RawBS) (hwf : bs.WF) (i : Nat)
    (hi : i < bs.dates.length) :
    (analyze_balance_sheet bs).1.debt_to_equity.length = bs.dates.length ∧
    (analyze_balance_sheet bs).1.debt_to_equity.getD i FVal.nan =
      FVal.div ((analyze_balance_sheet bs).1.long_term_debt.getD i FVal.nan)
        ((analyze_balance_sheet bs).1.total_equity.getD i FVal.nan) := by
  have hltd : ((setYearIndex (transposeRaw bs)).getCol "Long Term Debt").length
      = bs.dates.length := by
    rw [getCol_length _ _ (cleaned_wf bs hwf), cleaned_years_length]
  have hte : ((setYearIndex (transposeRaw bs)).getCol "Total Equity").length
      = bs.dates.length := by
    rw [getCol_length _ _ (cleaned_wf bs hwf), cleaned_years_length]
  constructor
  · show (arrDiv ((setYearIndex (transposeRaw bs)).getCol "Long Term Debt")
        ((setYearIndex (transposeRaw bs)).getCol "Total Equity")).length
      = bs.dates.length
    simp [arrDiv, List.length_zipWith, hltd, hte]
  · exact zipWith_getD_of_lt FVal.div _ _ i
      (by rw [hltd]; exact hi) (by rw [hte]; exact hi)

/-- C3 witness: the debt-to-equity identity at `sampleBS`, year index 0. -/
theorem c3_witness :
    (analyze_balance_sheet sampleBS).1.debt_to_equity.length = sampleBS.dates.length ∧
    (analyze_balance_sheet sampleBS).1.debt_to_equity.getD 0 FVal.nan =
      FVal.div ((analyze_balance_sheet sampleBS).1.long_term_debt.getD 0 FVal.nan)
        ((analyze_balance_sheet sampleBS).1.total_equity.getD 0 FVal.nan) :=
  c3_debt_to_equity sampleBS (by decide) 0 (by decide)

/-- C4: in a well-formed table, when a line item among Current Assets,
Current Liabilities, Long Term Debt, Total Equity, Total Assets is
missing, every ratio depending on it is the all-NaN series with one entry
per year (the NaN default column propagates through the division). -/
theorem c4_missing_item_nan (bs : RawBS) (hwf : bs.WF) :
    ((∀ p ∈ bs.items, ¬ p.1 = "Current Assets") →
      (analyze_balance_sheet bs).1.current_ratio
        = List.replicate bs.dates.length FVal.nan) ∧
    ((∀ p ∈ bs.items, ¬ p.1 = "Current Liabilities") →
      (analyze_balance_sheet bs).1.current_ratio
        = List.replicate bs.dates.length FVal.nan) ∧
    ((∀ p ∈ bs.items, ¬ p.1 = "Long Term Debt") →
      (analyze_balance_sheet bs).1.debt_to_equity
        = List.replicate bs.dates.length FVal.nan ∧
      (analyze_balance_sheet bs).1.debt_to_assets
        = List.replicate bs.dates.length FVal.nan) ∧
    ((∀ p ∈ bs.items, ¬ p.1 = "Total Equity") →
      (analyze_balance_sheet bs).1.debt_to_equity
        = List.replicate bs.dates.length FVal.nan ∧
      (analyze_balance_sheet bs).1.equity_ratio
        = List.replicate bs.dates.length FVal.nan) ∧
    ((∀ p ∈ bs.items, ¬ p.1 = "Total Assets") →
      (analyze_balance_sheet bs).1.debt_to_assets
        = List.replicate bs.dates.length FVal.nan ∧
      (analyze_balance_sheet bs).1.equity_ratio
        = List.replicate bs.dates.length FVal.nan) := by
  refine ⟨fun h => ?_, fun h => ?_, fun h => ⟨?_, ?_⟩, fun h => ⟨?_, ?_⟩,
    fun h => ⟨?_, ?_⟩⟩
  · exact ratio_all_nan_left bs hwf _ _ h
  · exact ratio_all_nan_right bs hwf _ _ h
  · exact ratio_all_nan_left bs hwf _ _ h
  · exact ratio_all_nan_left bs hwf _ _ h
  · exact ratio_all_nan_right bs hwf _ _ h
  · exact ratio_all_nan_left bs hwf _ _ h
  · exact ratio_all_nan_right bs hwf _ _ h
  · exact ratio_all_nan_right bs hwf _ _ h

/-- C4 witness: `sampleMissing` lacks Current Assets, so its current
ratio is the one-entry NaN series. -/
theorem c4_witness :
    (analyze_balance_sheet sampleMissing).1.current_ratio
      = List.replicate sampleMissing.dates.length FVal.nan :=
  (c4_missing_item_nan sampleMissing (by decide)).1 (by decide)

/-- C5 (counterexample): the clause "main never propagates an exception to
the caller" fails on the code: the `input()` prompt (src/app.py line 202)
runs BEFORE the `try` block, so a failure there (e.g. `EOFError` on closed
stdin) escapes `main` unhandled. -/
theorem c5_counterexample :
    BLSheet.main (.error "EOFError")
      (fun _ => .error "unused") (fun _ _ => .error "unused")
      = .error "EOFError" := rfl

/-- C5 (amended): once the prompt has been read, `main` returns printed
lines and cannot propagate an exception; an error raised by the fetch step
is caught and printed with the hint; an empty balance sheet prints the
empty-dataset message and returns without consulting the analysis step (the
output is a fixed list not mentioning `an`); an error raised by the
analysis step is caught and printed with the hint.  Only a failure of the
pre-`try` input prompt propagates. -/
theorem c5_errors_caught :
    (∀ (s : String) (gsd : String → Except String (RawBS × Info))
        (an : RawBS → Info → Except String String),
        BLSheet.main (.ok s) gsd an = .ok (mainBody s.trim gsd an)) ∧
    (∀ (sym : String) (gsd : String → Except String (RawBS × Info))
        (an : RawBS → Info → Except String String) (e : String),
        gsd sym = .error e →
        mainBody sym gsd an = [bannerLine, fetchLine sym, "Error: " ++ e, hintMsg]) ∧
    (∀ (sym : String) (gsd : String → Except String (RawBS × Info))
        (an : RawBS → Info → Except String String) (bs : RawBS) (info : Info),
        gsd sym = .ok (bs, info) → bs.isEmpty = true →
        mainBody sym gsd an = [bannerLine, fetchLine sym, emptyMsg]) ∧
    (∀ (sym : String) (gsd : String → Except String (RawBS × Info))
        (an : RawBS → Info → Except String String) (bs : RawBS) (info : Info)
        (e : String),
        gsd sym = .ok (bs, info) → bs.isEmpty = false → an bs info = .error e →
        mainBody sym gsd an
          = [bannerLine, fetchLine sym, analyzingLine, "Error: " ++ e, hintMsg]) := by
  refine ⟨fun s gsd an => rfl, fun sym gsd an e h => ?_,
    fun sym gsd an bs info h he => ?_, fun sym gsd an bs info e h he ha => ?_⟩
  · simp [mainBody, h]
  · simp [mainBody, h, he]
  · simp [mainBody, h, he, ha]

/-- C5 witness: the four behaviours at concrete inputs. -/
theorem c5_witness :
    BLSheet.main (.ok " TCS ") (fun _ => .error "HTTPError") (fun _ _ => .ok "report")
      = .ok (mainBody " TCS ".trim (fun _ => .error "HTTPError") (fun _ _ => .ok "report")) ∧
    mainBody "TCS" (fun _ => .error "HTTPError") (fun _ _ => .ok "report")
      = [bannerLine, fetchLine "TCS", "Error: " ++ "HTTPError", hintMsg] ∧
    mainBody "X" (fun _ => .ok (⟨[], []⟩, [])) (fun _ _ => .ok "report")
      = [bannerLine, fetchLine "X", emptyMsg] ∧
    mainBody "Y" (fun _ => .ok (sampleBS, [])) (fun _ _ => .error "boom")
      = [bannerLine, fetchLine "Y", analyzingLine, "Error: " ++ "boom", hintMsg] :=
  ⟨c5_errors_caught.1 " TCS " _ _,
   c5_errors_caught.2.1 "TCS" _ _ "HTTPError" rfl,
   c5_errors_caught.2.2.1 "X" _ _ ⟨[], []⟩ [] rfl rfl,
   c5_errors_caught.2.2.2 "Y" _ _ sampleBS [] "boom" rfl rfl rfl⟩

/-- C6: ratio computation and bucketing are total.  For every well-formed
table — zero denominators included — each of the four ratio series has one
entry per year; a nonzero rational over zero is a signed infinity and 0/0
is NaN rather than an error; and each classifier returns one of its fixed
labels for EVERY model float, NaN and infinities included. -/
theorem c6_totality :
    (∀ (bs : RawBS), bs.WF →
      (analyze_balance_sheet bs).1.current_ratio.length = bs.dates.length ∧
      (analyze_balance_sheet bs).1.debt_to_equity.length = bs.dates.length ∧
      (analyze_balance_sheet bs).1.debt_to_assets.length = bs.dates.length ∧
      (analyze_balance_sheet bs).1.equity_ratio.length = bs.dates.length) ∧
    (FVal.div (.fin 1) (.fin 0) = .inf true ∧ FVal.div (.fin 0) (.fin 0) = .nan) ∧
    (∀ v : FVal, liquidityLabel v ∈ ["excellent short-term financial health",
        "comfortable liquidity position", "adequate current assets coverage",
        "minimal liquidity buffer", "potential liquidity concerns"]) ∧
    (∀ v : FVal, debtLabel v ∈ ["conservative debt management with low financial risk",
        "moderate leverage that's typically manageable", "aggressive financing strategy",
        "highly leveraged position increasing bankruptcy risk"]) ∧
    (∀ v : FVal, equityLabel v ∈ ["strong equity base providing financial stability",
        "balanced capital structure", "asset-heavy with potential refinancing risks"]) ∧
    (∀ a b : FVal, recommendationLabel a b ∈ ["Conservative", "Moderate"]) := by
  refine ⟨?_, ⟨by decide, by decide⟩, ?_, ?_, ?_, ?_⟩
  · intro bs hwf
    have key : ∀ n1 n2 : String,
        (arrDiv ((setYearIndex (transposeRaw bs)).getCol n1)
          ((setYearIndex (transposeRaw bs)).getCol n2)).length = bs.dates.length := by
      intro n1 n2
      simp [arrDiv, List.length_zipWith, getCol_length _ _ (cleaned_wf bs hwf),
        cleaned_years_length]
    exact ⟨key _ _, key _ _, key _ _, key _ _⟩
  · intro v
    unfold liquidityLabel
    split_ifs <;> simp
  · intro v
    unfold debtLabel
    split_ifs <;> simp
  · intro v
    unfold equityLabel
    split_ifs <;> simp
  · intro a b
    unfold recommendationLabel
    split_ifs <;> simp

/-- C6 witness: full-length ratio series on a table with a zero
current-liabilities denominator, and classifier labels at NaN and +∞. -/
theorem c6_witness :
    (analyze_balance_sheet sampleZeroCL).1.current_ratio.length
      = sampleZeroCL.dates.length ∧
    liquidityLabel FVal.nan ∈ ["excellent short-term financial health",
        "comfortable liquidity position", "adequate current assets coverage",
        "minimal liquidity buffer", "potential liquidity concerns"] ∧
    liquidityLabel (FVal.inf true) ∈ ["excellent short-term financial health",
        "comfortable liquidity position", "adequate current assets coverage",
        "minimal liquidity buffer", "potential liquidity concerns"] :=
  ⟨(c6_totality.1 sampleZeroCL (by decide)).1,
   c6_totality.2.2.1 FVal.nan, c6_totality.2.2.1 (FVal.inf true)⟩

/-- C7: the input table is unchanged by analysis.  In the heap model of
`analyze_balance_sheet`, where `balance_sheet.T` allocates the fresh frame
`bs_df` and the index assignment mutates only `bs_df`, the object seen
through the input reference after the run is exactly the object before. -/
theorem c7_input_preserved (h : Heap) (bsRef : Nat) (hwf : Heap.WF h) :
    hget (analyzeHeap h bsRef).1 bsRef = hget h bsRef := by
  cases hg : hget h bsRef with
  | none => simp [analyzeHeap, hg]
  | some o =>
      cases o with
      | tdfD t => simp [analyzeHeap, hg]
      | tdfY t => simp [analyzeHeap, hg]
      | raw bsr =>
          have hlt : bsRef < h.length := hget_lt_length h hwf bsRef _ hg
          have hne : bsRef ≠ h.length := Nat.ne_of_lt hlt
          simp only [analyzeHeap, hg]
          rw [show hget ((h.length, PObj.tdfD (transposeRaw bsr)) :: h) h.length
              = some (PObj.tdfD (transposeRaw bsr)) by rw [hget_cons, if_pos rfl]]
          show hget (hset ((h.length, PObj.tdfD (transposeRaw bsr)) :: h) h.length
              (PObj.tdfY (setYearIndex (transposeRaw bsr)))) bsRef = some (PObj.raw bsr)
          rw [hget_hset_ne _ _ _ _ hne, hget_cons,
            if_neg (show ¬(h.length = bsRef) from Ne.symm hne)]
          exact hg

/-- C7 witness: the frame property at the one-object heap. -/
theorem c7_witness :
    hget (analyzeHeap sampleHeap 0).1 0 = hget sampleHeap 0 :=
  c7_input_preserved sampleHeap 0 (by decide)

/-- C8: `get_stock_data` appends ".NS" exactly when the symbol contains
no `'.'`; a symbol already containing a `'.'` is passed on unchanged. -/
theorem c8_suffix (symbol : String) :
    (symbol.data.contains '.' = false → resolveSymbol symbol = symbol ++ ".NS") ∧
    (symbol.data.contains '.' = true → resolveSymbol symbol = symbol) := by
  constructor <;> intro h <;>
    · unfold resolveSymbol
      rw [h]
      rfl

/-- C8 witness: a plain NSE symbol gains the suffix; a dotted one is kept. -/
theorem c8_witness :
    resolveSymbol "RELIANCE" = "RELIANCE" ++ ".NS" ∧
    resolveSymbol "TCS.NS" = "TCS.NS" :=
  ⟨(c8_suffix "RELIANCE").1 (by decide), (c8_suffix "TCS.NS").2 (by decide)⟩

/-- C9: a NaN last-year ratio lands in the worst bucket of its scale, not
in a missing-data branch: NaN current ratio gives "potential liquidity
concerns" (and forces the "Moderate" recommendation, since `cr > 1.5` is
false on NaN); NaN debt-to-equity gives "highly leveraged position
increasing bankruptcy risk" (and "Moderate", since `dte < 0.5` is false);
NaN equity ratio gives "asset-heavy with potential refinancing risks". -/
theorem c9_nan_worst_bucket (r : AnalysisResults) (rep : Report)
    (hrep : generate_ai_analysis r = some rep) :
    (r.current_ratio.getLastD FVal.nan = FVal.nan →
      rep.liquidity = "potential liquidity concerns" ∧
      rep.recommendation = "Moderate") ∧
    (r.debt_to_equity.getLastD FVal.nan = FVal.nan →
      rep.debt = "highly leveraged position increasing bankruptcy risk" ∧
      rep.recommendation = "Moderate") ∧
    (r.equity_ratio.getLastD FVal.nan = FVal.nan →
      rep.equity = "asset-heavy with potential refinancing risks") := by
  unfold generate_ai_analysis at hrep
  cases hy : r.years.getLast? with
  | none => rw [hy] at hrep; cases hrep
  | some y =>
      rw [hy] at hrep
      have hb := Option.some.inj hrep
      subst hb
      refine ⟨fun hcr => ⟨?_, ?_⟩, fun hdte => ⟨?_, ?_⟩, fun her => ?_⟩
      · show liquidityLabel (r.current_ratio.getLastD FVal.nan)
          = "potential liquidity concerns"
        rw [hcr]
        rfl
      · show recommendationLabel (r.debt_to_equity.getLastD FVal.nan)
          (r.current_ratio.getLastD FVal.nan) = "Moderate"
        rw [hcr]
        unfold recommendationLabel
        simp [FVal.gt, lt_nan_right]
      · show debtLabel (r.debt_to_equity.getLastD FVal.nan)
          = "highly leveraged position increasing bankruptcy risk"
        rw [hdte]
        rfl
      · show recommendationLabel (r.debt_to_equity.getLastD FVal.nan)
          (r.current_ratio.getLastD FVal.nan) = "Moderate"
        rw [hdte]
        unfold recommendationLabel
        simp [lt_nan_left]
      · show equityLabel (r.equity_ratio.getLastD FVal.nan)
          = "asset-heavy with potential refinancing risks"
        rw [her]
        rfl

/-- C9 witness: on `sampleMissing` every ratio is NaN; the generated
report carries the worst buckets and the "Moderate" recommendation. -/
theorem c9_witness :
    generate_ai_analysis (analyze_balance_sheet sampleMissing).1
      = some sampleMissingReport ∧
    sampleMissingReport.liquidity = "potential liquidity concerns" ∧
    sampleMissingReport.recommendation = "Moderate" :=
  have h : generate_ai_analysis (analyze_balance_sheet sampleMissing).1
      = some sampleMissingReport := by decide
  have hcr : (analyze_balance_sheet sampleMissing).1.current_ratio.getLastD FVal.nan
      = FVal.nan := by decide
  ⟨h, ((c9_nan_worst_bucket _ _ h).1 hcr).1, ((c9_nan_worst_bucket _ _ h).1 hcr).2⟩

/-- C10: the report is built from the LAST row of the transposed table:
the years pass through the pipeline in provider order with no sorting, the
reported "latest" fiscal year is `years.getLast?`, and on the unsorted
sample whose columns are 2024 then 2020 the report says 2020 even though
2024 is present and larger. -/
theorem c10_latest_is_last_row :
    (∀ bs : RawBS, (analyze_balance_sheet bs).1.years = bs.dates.map BDate.year) ∧
    (∀ (bs : RawBS) (rep : Report), (analyze_balance_sheet bs).2 = some rep →
      some rep.year = (bs.dates.map BDate.year).getLast?) ∧
    ((analyze_balance_sheet sampleUnsorted).2 = some sampleUnsortedReport ∧
      sampleUnsortedReport.year = 2020 ∧
      (2024 : Int) ∈ (analyze_balance_sheet sampleUnsorted).1.years ∧
      (2020 : Int) < 2024) := by
  refine ⟨fun bs => rfl, fun bs rep h => ?_, by decide, by decide, by decide, by decide⟩
  have h2 : generate_ai_analysis (resultsFrom (setYearIndex (transposeRaw bs)))
      = some rep := h
  unfold generate_ai_analysis at h2
  cases hy : (resultsFrom (setYearIndex (transposeRaw bs))).years.getLast? with
  | none => rw [hy] at h2; cases h2
  | some y =>
      rw [hy] at h2
      have hb := Option.some.inj h2
      subst hb
      show some y = (bs.dates.map BDate.year).getLast?
      rw [show bs.dates.map BDate.year
          = (resultsFrom (setYearIndex (transposeRaw bs))).years from rfl, hy]

/-- C10 witness: at the unsorted sample the reported year is the last
column's year. -/
theorem c10_witness :
    some sampleUnsortedReport.year = (sampleUnsorted.dates.map BDate.year).getLast? :=
  c10_latest_is_last_row.2.1 sampleUnsorted sampleUnsortedReport (by decide)

end BLSheet
